import Mathlib

/-!
Verification of the iboardbot-web client-side preview pipeline.

The repository contains three variants of the preview frontend:
* `scripts.js` (Konva, older style): `drawPreview` uses `offset()` to anchor the
  group at its content center and positions it at the viewport center;
  `printObject` submits `x() + offsetX()`.
* the newer Konva variant (first document of `unnamed/part_002`): `fitGroup`
  scales without `offset()` and centers via `move()`; `printObject` submits
  `x()` directly; the stage click/tap handler toggles selection.
* the fabric.js variant (second document of `unnamed/part_002`):
  `preparePolyline` pre-multiplies coordinates by the preview scale factor,
  the group is top-anchored at the margin, and `printObject` divides the
  stored pixel offsets by the preview scale factor.

All real-valued quantities are modelled over `ℚ` (the JavaScript numbers in
play are exact small decimals, and no claim depends on rounding).
-/

namespace IBoardBot

/-- A 2D point as returned by the decomposition service (device units). -/
structure Point where
  x : ℚ
  y : ℚ
deriving Repr, DecidableEq

/-- One polyline: the ordered points of one stroke. -/
abbrev Polyline := List Point

/-- The full decomposition of one image. -/
abbrev PolylineSet := List Polyline

/-- Constant `IBB_WIDTH` of all frontend variants. -/
def IBB_WIDTH : ℚ := 358

/-- Constant `IBB_HEIGHT` of all frontend variants. -/
def IBB_HEIGHT : ℚ := 123

/-- Constant `PREVIEW_SCALE_FACTOR` of all frontend variants. -/
def PREVIEW_SCALE_FACTOR : ℚ := 3

/-- Constant `MARGIN` of the Konva variants. -/
def MARGIN : ℚ := 10

/-- A width/height pair (the `targetSize` objects of the source). -/
structure Size where
  width : ℚ
  height : ℚ
deriving Repr, DecidableEq

/-- An axis-aligned rectangle as returned by Konva's `getClientRect`. -/
structure Rect where
  x : ℚ
  y : ℚ
  width : ℚ
  height : ℚ
deriving Repr, DecidableEq

/-- Horizontal center of a rectangle. -/
def rectCenterX (r : Rect) : ℚ := r.x + r.width / 2

/-- Vertical center of a rectangle. -/
def rectCenterY (r : Rect) : ℚ := r.y + r.height / 2

/-- Tight axis-aligned bounding box of all points of a polyline set: the
`getClientRect({skipShadow, skipStroke})` of the untransformed group built by
`drawPreview` (stroke and shadow skipped, so only the raw points count).
Konva returns the zero rectangle for a group with no visible content. -/
def boundingBox (ps : PolylineSet) : Rect :=
  match ps.flatten with
  | [] => ⟨0, 0, 0, 0⟩
  | p :: rest =>
      let minX := rest.foldl (fun a q => min a q.x) p.x
      let minY := rest.foldl (fun a q => min a q.y) p.y
      let maxX := rest.foldl (fun a q => max a q.x) p.x
      let maxY := rest.foldl (fun a q => max a q.y) p.y
      ⟨minX, minY, maxX - minX, maxY - minY⟩

/-- The scale chosen by the fit step (`fitGroup` in the newer Konva variant,
src/unnamed/part_002 lines 46-64; `drawPreview` in scripts.js lines 58-77
inlines the same computation with `bounds = (IBB_WIDTH, IBB_HEIGHT)` and
`margin = MARGIN` pre-subtracted into `targetSize`): the target is shrunk by
the margin once per axis, and the branch is chosen by comparing the content
aspect ratio against the aspect ratio of the margin-shrunk target. -/
def fitScale (content : Size) (bounds : Size) (margin : ℚ) : ℚ :=
  let tsw := bounds.width - margin
  let tsh := bounds.height - margin
  if content.width / content.height > tsw / tsh then
    tsw / content.width
  else
    tsh / content.height

/-- A Konva group as far as the pipeline observes it: its transform attributes,
its name, and the points of its child `Konva.Line`s. -/
structure KonvaGroup where
  x : ℚ
  y : ℚ
  offsetX : ℚ
  offsetY : ℚ
  scaleX : ℚ
  scaleY : ℚ
  name : String
  lines : PolylineSet
deriving Repr, DecidableEq

/-- The group built by `drawPreview` of scripts.js (lines 35-79): offset set to
the content-box center, scale from the fit computation (targetSize is already
the margin-shrunk bounds there), position set to the viewport center. -/
def mkGroupA (ps : PolylineSet) : KonvaGroup :=
  let r := boundingBox ps
  let s := fitScale ⟨r.width, r.height⟩ ⟨IBB_WIDTH, IBB_HEIGHT⟩ MARGIN
  { x := IBB_WIDTH / 2
    y := IBB_HEIGHT / 2
    offsetX := r.width / 2 + r.x
    offsetY := r.height / 2 + r.y
    scaleX := s
    scaleY := s
    name := "polylines"
    lines := ps }

/-- The group built by `drawPreview` + `fitGroup` of the newer Konva variant
(src/unnamed/part_002 lines 35-96): no offset; after scaling, the group is
`move`d so that its (re-measured) client rect is centered in the viewport.
After scaling by `s ≥ 0` the client rect of a group at position 0 is the
original rect with every component multiplied by `s`. -/
def mkGroupB (ps : PolylineSet) : KonvaGroup :=
  let r := boundingBox ps
  let s := fitScale ⟨r.width, r.height⟩ ⟨IBB_WIDTH, IBB_HEIGHT⟩ MARGIN
  { x := (IBB_WIDTH - r.width * s) / 2 - r.x * s
    y := (IBB_HEIGHT - r.height * s) / 2 - r.y * s
    offsetX := 0
    offsetY := 0
    scaleX := s
    scaleY := s
    name := "polylines"
    lines := ps }

/-- Rectangle actually covered on the (device-unit) stage by the content of the
scripts.js group: Konva renders a content point `p` of a node at
`position + (p - offset) * scale`. -/
def renderedRectA (ps : PolylineSet) : Rect :=
  let r := boundingBox ps
  let g := mkGroupA ps
  ⟨g.x + (r.x - g.offsetX) * g.scaleX,
   g.y + (r.y - g.offsetY) * g.scaleY,
   r.width * g.scaleX,
   r.height * g.scaleY⟩

/-- Rectangle covered on the stage by the content of the newer-Konva group
(offset is zero there). -/
def renderedRectB (ps : PolylineSet) : Rect :=
  let r := boundingBox ps
  let g := mkGroupB ps
  ⟨g.x + r.x * g.scaleX,
   g.y + r.y * g.scaleY,
   r.width * g.scaleX,
   r.height * g.scaleY⟩

/-- The body of one `/print/` request. -/
structure PrintRequest where
  offset_x : ℚ
  offset_y : ℚ
  scale_x : ℚ
  scale_y : ℚ
  mode : String
deriving Repr, DecidableEq

/-- Per-group request built by `printObject` of scripts.js (lines 104-121):
`dx = obj.x() + obj.offsetX()`, `dy = obj.y() + obj.offsetY()`, scales as-is. -/
def printRequestA (obj : KonvaGroup) (mode : String) : PrintRequest :=
  ⟨obj.x + obj.offsetX, obj.y + obj.offsetY, obj.scaleX, obj.scaleY, mode⟩

/-- Per-group request built by `printObject` of the newer Konva variant
(src/unnamed/part_002 lines 110-127): `dx = obj.x()`, `dy = obj.y()`. -/
def printRequestB (obj : KonvaGroup) (mode : String) : PrintRequest :=
  ⟨obj.x, obj.y, obj.scaleX, obj.scaleY, mode⟩

/-- The alert text of the empty-state submit guard. -/
def noObjectNotice : String := "No object loaded. Please choose an SVG file first."

/-- The alert text used for HTTP 400 responses. -/
def invalidInputAlert : String := "Error. Did you upload a valid SVG file?"

/-- The alert text used for other non-success responses. -/
def genericErrorAlert (status : Nat) : String :=
  "Error (HTTP " ++ toString status ++ ")"

/-- Embeds `printObject` of scripts.js: filters the layer's children for groups named
`polylines`; with none, it alerts and issues no request; otherwise it issues
one request per group. The function only reads the layer, it never writes it. -/
def printObjectA (layer : List KonvaGroup) (mode : String) :
    List PrintRequest × List String :=
  let children := layer.filter (fun g => g.name = "polylines")
  if children.length = 0 then
    ([], [noObjectNotice])
  else
    (children.map (fun g => printRequestA g mode), [])

/-- Embeds `printObject` of the newer Konva variant: same guard, `printRequestB`. -/
def printObjectB (layer : List KonvaGroup) (mode : String) :
    List PrintRequest × List String :=
  let children := layer.filter (fun g => g.name = "polylines")
  if children.length = 0 then
    ([], [noObjectNotice])
  else
    (children.map (fun g => printRequestB g mode), [])

/-- Handling of one `/print/` response in every variant's `printObject`:
all branches only produce an alert; no branch touches the group, so the
group (the current placement) passes through unchanged. -/
def submitHandle (g : KonvaGroup) (status : Nat) (mode : String) :
    KonvaGroup × List String :=
  (g,
   [if status = 204 then
      (if mode = "once" then "Printing!" else "Scheduled printing!")
    else if status = 400 then invalidInputAlert
    else genericErrorAlert status])

/-- The Konva layer: the list of groups it contains. -/
abbrev Layer := List KonvaGroup

/-- Embeds `loadSvg` of the Konva variants (scripts.js lines 13-33, part_002 lines
13-33), from the point the `/preview/` response is available: on a success
status (`r.ok`, 200-299) the layer is cleared (`destroyChildren`) and the new
group drawn; on 400 only the invalid-input alert fires; on any other status
only the generic alert fires. The error body (`errBody`) is never read by this
handler. Result: the new layer contents and the alerts produced. -/
def loadSvg (layer : Layer) (status : Nat) (ps : PolylineSet)
    (errBody : Option String) : Layer × List String :=
  if 200 ≤ status ∧ status < 300 then
    ([mkGroupB ps], [])
  else if status = 400 then
    (layer, [invalidInputAlert])
  else
    (layer, [genericErrorAlert status])

/-- Error text built by `loadSvgList` of `unnamed/part_001` (lines 28-41):
base message with the numeric status; when the error body parses and carries a
`details` field it is appended, otherwise the `catch {}` falls back silently. -/
def loadSvgListErrorText (status : Nat) (details : Option String) : String :=
  let base := "Error fetching SVG files (HTTP " ++ toString status ++ ")"
  match details with
  | some d => base ++ "\nDetails: " ++ d
  | none => base

/-- A fabric.js object as far as `printObject` observes it. -/
structure FabricObject where
  left : ℚ
  top : ℚ
  originalLeft : ℚ
  originalTop : ℚ
  scaleX : ℚ
  scaleY : ℚ
deriving Repr, DecidableEq

/-- Embeds `preparePolyline` of the fabric variant: pre-multiplies every coordinate
by the given scale factor. -/
def preparePolyline (p : Polyline) (scaleFactor : ℚ) : Polyline :=
  p.map (fun q => ⟨q.x * scaleFactor, q.y * scaleFactor⟩)

/-- Pixel dimensions of the fabric group: bounding box of the pre-multiplied
points (stroke decoration ignored, as in the bounding-box contract). -/
def fabricGroupDims (ps : PolylineSet) : Size :=
  let r := boundingBox (ps.map (fun p => preparePolyline p PREVIEW_SCALE_FACTOR))
  ⟨r.width, r.height⟩

/-- The scale chosen by the fabric variant's `drawPreview` (part_002, second
document): branch on the raw canvas aspect ratio, then `scaleToHeight` /
`scaleToWidth` towards the bounds shrunk by `2 * offset` pixels. -/
def fabricFit (w h : ℚ) : ℚ :=
  if h / w > (IBB_HEIGHT * PREVIEW_SCALE_FACTOR) / (IBB_WIDTH * PREVIEW_SCALE_FACTOR) then
    (IBB_HEIGHT * PREVIEW_SCALE_FACTOR - 5 * PREVIEW_SCALE_FACTOR * 2) / h
  else
    (IBB_WIDTH * PREVIEW_SCALE_FACTOR - 5 * PREVIEW_SCALE_FACTOR * 2) / w

/-- Pixel rectangle covered by the fabric group after
`setPositionByOrigin(new fabric.Point(width / 2, offset), center, top)`:
horizontal center at half the canvas width, top edge at `offset` pixels. -/
def fabricScaledRect (w h : ℚ) : Rect :=
  let s := fabricFit w h
  ⟨IBB_WIDTH * PREVIEW_SCALE_FACTOR / 2 - s * w / 2,
   5 * PREVIEW_SCALE_FACTOR,
   s * w,
   s * h⟩

/-- The fabric group right after `drawPreview`: `left`/`top` hold the
anchored position produced by `setPositionByOrigin`; the private
`_originalLeft`/`_originalTop` fields are written by `Group#saveCoords`
during group construction — BEFORE `scaleToWidth`/`scaleToHeight` and
`setPositionByOrigin` reposition the group, and nothing on the `canvas.add`
path re-records them — so they hold the construction position: the min
corner of the pre-multiplied content bounds. -/
def mkFabricObject (ps : PolylineSet) : FabricObject :=
  let r := boundingBox (ps.map (fun p => preparePolyline p PREVIEW_SCALE_FACTOR))
  let s := fabricFit r.width r.height
  ⟨IBB_WIDTH * PREVIEW_SCALE_FACTOR / 2 - s * r.width / 2,
   5 * PREVIEW_SCALE_FACTOR,
   r.x, r.y, s, s⟩

/-- Per-object request built by the fabric `printObject` (part_002 lines
290-307): offsets divided by `PREVIEW_SCALE_FACTOR`, scales as-is. -/
def printRequestFabric (obj : FabricObject) (mode : String) : PrintRequest :=
  ⟨(obj.left - obj.originalLeft) / PREVIEW_SCALE_FACTOR,
   (obj.top - obj.originalTop) / PREVIEW_SCALE_FACTOR,
   obj.scaleX, obj.scaleY, mode⟩

/-- The fabric `printObject` guard: `canvas.getObjects().length == 0`. -/
def printObjectFabric (objs : List FabricObject) (mode : String) :
    List PrintRequest × List String :=
  if objs.length = 0 then
    ([], [noObjectNotice])
  else
    (objs.map (fun o => printRequestFabric o mode), [])

/-- On-screen horizontal pixel displacement of a fabric object from its
original position: the fabric canvas is not scaled, and the polyline points
were pre-multiplied, so stored coordinates are preview pixels. -/
def fabricPixelDisplacementX (obj : FabricObject) : ℚ := obj.left - obj.originalLeft

/-- On-screen vertical pixel displacement of a fabric object. -/
def fabricPixelDisplacementY (obj : FabricObject) : ℚ := obj.top - obj.originalTop

/-- On-screen horizontal pixel position of a Konva node: the stage is scaled
by `PREVIEW_SCALE_FACTOR`, so node coordinates map to pixels by that factor. -/
def konvaPixelX (g : KonvaGroup) : ℚ := PREVIEW_SCALE_FACTOR * g.x

/-- On-screen vertical pixel position of a Konva node. -/
def konvaPixelY (g : KonvaGroup) : ℚ := PREVIEW_SCALE_FACTOR * g.y

/-- Horizontal pixel position at which Konva renders the content point with
x-coordinate `px` of a group: stage scale times `x + (px - offsetX) * scaleX`. -/
def konvaRenderX (g : KonvaGroup) (px : ℚ) : ℚ :=
  PREVIEW_SCALE_FACTOR * (g.x + (px - g.offsetX) * g.scaleX)

/-- Vertical pixel position at which Konva renders the content point with
y-coordinate `py` of a group. -/
def konvaRenderY (g : KonvaGroup) (py : ℚ) : ℚ :=
  PREVIEW_SCALE_FACTOR * (g.y + (py - g.offsetY) * g.scaleY)

/-- A click target of the newer Konva variant's stage handler: the stage
itself, or a shape whose parent group carries the given identifier. -/
inductive ClickTarget where
  | stage : ClickTarget
  | shape : Nat → ClickTarget
deriving Repr, DecidableEq

/-- The `stage.on(click tap)` handler of the newer Konva variant
(src/unnamed/part_002 lines 169-178): clicking the stage empties the
transformer's node list; clicking a shape selects its parent group when that
group is not currently in the list, and empties the list otherwise. -/
def clickHandler (selected : List Nat) (t : ClickTarget) : List Nat :=
  match t with
  | .stage => []
  | .shape g => if selected.contains g then [] else [g]

/-- The end-to-end example polyline set of the spec:
`[[{x:0,y:0},{x:10,y:0},{x:10,y:10}]]`. -/
def tri : PolylineSet := [[⟨0, 0⟩, ⟨10, 0⟩, ⟨10, 10⟩]]

/-- A wide polyline set (aspect 10:1), used to exercise the width-binding
branch of the fabric fit. -/
def wideTri : PolylineSet := [[⟨0, 0⟩, ⟨100, 0⟩, ⟨100, 10⟩]]

/-- C1 (amended): for positive content dimensions and positive margin-shrunk
target dimensions, the fit step applies the largest uniform scale keeping the
scaled content inside the margin-shrunk target, with equality on the binding
axis; the binding axis is width exactly when the content aspect ratio exceeds
the aspect ratio of the MARGIN-SHRUNK target (not of the raw target, as the
claim states), and in the width case the height constraint is strict. -/
theorem fitScale_binding_axis (c t : Size) (m : ℚ)
    (hcw : 0 < c.width) (hch : 0 < c.height)
    (htw : 0 < t.width - m) (hth : 0 < t.height - m) :
    (fitScale c t m * c.width ≤ t.width - m ∧
     fitScale c t m * c.height ≤ t.height - m) ∧
    (c.width / c.height > (t.width - m) / (t.height - m) →
      fitScale c t m * c.width = t.width - m ∧
      fitScale c t m * c.height < t.height - m) ∧
    (¬ c.width / c.height > (t.width - m) / (t.height - m) →
      fitScale c t m * c.height = t.height - m ∧
      fitScale c t m * c.width ≤ t.width - m) ∧
    (∀ s, s * c.width ≤ t.width - m → s * c.height ≤ t.height - m →
      s ≤ fitScale c t m) := by
  by_cases hb : c.width / c.height > (t.width - m) / (t.height - m)
  · have hs : fitScale c t m = (t.width - m) / c.width := by
      rw [fitScale, if_pos hb]
    have hcross : (t.width - m) * c.height < c.width * (t.height - m) :=
      (div_lt_div_iff₀ hth hch).mp hb
    have h1 : fitScale c t m * c.width = t.width - m := by
      rw [hs]; field_simp
    have h2 : fitScale c t m * c.height < t.height - m := by
      rw [hs, div_mul_eq_mul_div, div_lt_iff₀ hcw]
      nlinarith [hcross]
    refine ⟨⟨le_of_eq h1, le_of_lt h2⟩, fun _ => ⟨h1, h2⟩,
      fun hcon => absurd hb hcon, fun s hsw _ => ?_⟩
    rw [hs, le_div_iff₀ hcw]
    exact hsw
  · have hb' : c.width / c.height ≤ (t.width - m) / (t.height - m) := not_lt.mp hb
    have hs : fitScale c t m = (t.height - m) / c.height := by
      rw [fitScale, if_neg hb]
    have hcross : c.width * (t.height - m) ≤ (t.width - m) * c.height :=
      (div_le_div_iff₀ hch hth).mp hb'
    have h1 : fitScale c t m * c.height = t.height - m := by
      rw [hs]; field_simp
    have h2 : fitScale c t m * c.width ≤ t.width - m := by
      rw [hs, div_mul_eq_mul_div, div_le_iff₀ hch]
      nlinarith [hcross]
    refine ⟨⟨h2, le_of_eq h1⟩, fun hcon => absurd hcon hb,
      fun _ => ⟨h1, h2⟩, fun s _ hsh => ?_⟩
    rw [hs, le_div_iff₀ hch]
    exact hsh

/-- C1 witness: for the 10x10 content of the spec's end-to-end example against
the 358x123 device bounds with margin 10, height is the binding axis and the
chosen scale reaches exactly the shrunk target height. -/
theorem fitScale_binding_axis_witness :
    fitScale ⟨10, 10⟩ ⟨358, 123⟩ 10 * 10 = 123 - 10 ∧
    fitScale ⟨10, 10⟩ ⟨358, 123⟩ 10 * 10 ≤ 358 - 10 :=
  (fitScale_binding_axis ⟨10, 10⟩ ⟨358, 123⟩ 10 (by norm_num) (by norm_num)
    (by norm_num) (by norm_num)).2.2.1 (by norm_num)

/-- C1 counterexample: for a 300x100 content box the claim's tie-break
(content aspect vs RAW target aspect 358/123) selects width as binding, so the
claim demands equality on the width axis; the code compares against the
shrunk aspect 348/113 instead, takes the height branch, and the scaled width
is 339, not 348. -/
theorem fitScale_raw_aspect_counterexample :
    (300 : ℚ) / 100 > 358 / 123 ∧
    fitScale ⟨300, 100⟩ ⟨358, 123⟩ 10 * 300 ≠ 358 - 10 := by
  constructor
  · norm_num
  · rw [fitScale]
    norm_num

/-- C2 counterexample: no session token exists in `loadSvg`. Load file X, then
file Y; if Y's response arrives first and X's stale response arrives second,
the second (stale) response still clears the layer and draws X's polylines, so
the final displayed polylines are X's, not Y's — the claimed discard of stale
responses does not happen. Here X decomposes to `[[(0,0)]]` and Y to
`[[(1,1)]]`; applying Y's response and then X's leaves X's lines displayed. -/
theorem stale_response_counterexample :
    ((loadSvg (loadSvg [] 200 [[⟨1, 1⟩]] none).1 200 [[⟨0, 0⟩]] none).1.map
        KonvaGroup.lines) = [[[⟨0, 0⟩]]] ∧
    ([[⟨0, 0⟩]] : PolylineSet) ≠ [[⟨1, 1⟩]] := by
  constructor
  · simp [loadSvg, mkGroupB]
  · simp

/-- C2 (amended): the code carries no session token; every successful
decomposition response is applied unconditionally on arrival (clearing the
layer and drawing its own polylines), so the displayed polylines are those of
the LAST-ARRIVING successful response, which may belong to a superseded load. -/
theorem stale_response_last_writer_wins (layer : Layer) (psX psY : PolylineSet)
    (b b' : Option String) :
    (loadSvg (loadSvg layer 200 psY b).1 200 psX b').1 = [mkGroupB psX] ∧
    ((loadSvg (loadSvg layer 200 psY b).1 200 psX b').1.map KonvaGroup.lines)
      = [psX] := by
  constructor
  · simp [loadSvg]
  · simp [loadSvg, mkGroupB]

/-- C3 (amended): the fabric backend submits the stored pixel offsets divided
by the preview magnification factor, and the newer Konva backend submits stage
coordinates, which equal the on-screen pixel position divided by the stage's
magnification factor; scale factors are submitted unchanged by all backends.
The older Konva backend (scripts.js) deviates: it submits `x() + offsetX()`,
which exceeds the device-unit position of its on-screen anchor point (the
content point rendered at the node position) by exactly `offsetX()`. -/
theorem placement_readout_units (obj : FabricObject) (g g2 : KonvaGroup)
    (m : String) :
    (printRequestFabric obj m).offset_x
      = fabricPixelDisplacementX obj / PREVIEW_SCALE_FACTOR ∧
    (printRequestFabric obj m).offset_y
      = fabricPixelDisplacementY obj / PREVIEW_SCALE_FACTOR ∧
    (printRequestFabric obj m).scale_x = obj.scaleX ∧
    (printRequestFabric obj m).scale_y = obj.scaleY ∧
    (printRequestB g m).offset_x = konvaPixelX g / PREVIEW_SCALE_FACTOR ∧
    (printRequestB g m).offset_y = konvaPixelY g / PREVIEW_SCALE_FACTOR ∧
    (printRequestB g m).scale_x = g.scaleX ∧
    (printRequestB g m).scale_y = g.scaleY ∧
    (printRequestA g2 m).offset_x
      = konvaRenderX g2 g2.offsetX / PREVIEW_SCALE_FACTOR + g2.offsetX ∧
    (printRequestA g2 m).offset_y
      = konvaRenderY g2 g2.offsetY / PREVIEW_SCALE_FACTOR + g2.offsetY ∧
    (printRequestA g2 m).scale_x = g2.scaleX ∧
    (printRequestA g2 m).scale_y = g2.scaleY := by
  refine ⟨rfl, rfl, rfl, rfl, ?_, ?_, rfl, rfl, ?_, ?_, rfl, rfl⟩ <;>
    simp only [printRequestA, printRequestB, konvaPixelX, konvaPixelY,
      konvaRenderX, konvaRenderY, PREVIEW_SCALE_FACTOR] <;>
    ring

/-- C3 counterexample: for the spec's example polyline set loaded in the
scripts.js backend, the group's anchor (its content-box center, x = 5) is
rendered at on-screen pixel 537, i.e. device unit 179, but the submitted
`offset_x` is 184 — the read-out is NOT the preview-pixel offset divided by
the magnification factor. -/
theorem placement_readout_counterexample :
    (printRequestA (mkGroupA tri) "once").offset_x = 184 ∧
    konvaRenderX (mkGroupA tri)
        ((boundingBox tri).x + (boundingBox tri).width / 2) / PREVIEW_SCALE_FACTOR
      = 179 ∧
    (184 : ℚ) ≠ 179 := by
  refine ⟨?_, ?_, by norm_num⟩
  · norm_num [printRequestA, mkGroupA, boundingBox, tri, min_def, max_def,
      fitScale, IBB_WIDTH, IBB_HEIGHT, MARGIN]
  · norm_num [konvaRenderX, mkGroupA, boundingBox, tri, min_def, max_def,
      fitScale, IBB_WIDTH, IBB_HEIGHT, MARGIN, PREVIEW_SCALE_FACTOR]

/-- C4 (amended): after the initial fit, both Konva backends place the scaled
content's bounding-box center exactly at the center of the drawing region (for
every polyline set); the fabric backend centers horizontally, but anchors the
content top at the margin, so its vertical center agrees with the region
center only when height is the binding axis. -/
theorem centering_after_fit (ps : PolylineSet) (w h : ℚ)
    (hw : 0 < w) (hh : 0 < h) :
    rectCenterX (renderedRectA ps) = IBB_WIDTH / 2 ∧
    rectCenterY (renderedRectA ps) = IBB_HEIGHT / 2 ∧
    rectCenterX (renderedRectB ps) = IBB_WIDTH / 2 ∧
    rectCenterY (renderedRectB ps) = IBB_HEIGHT / 2 ∧
    rectCenterX (fabricScaledRect w h) = IBB_WIDTH * PREVIEW_SCALE_FACTOR / 2 ∧
    (h / w > (IBB_HEIGHT * PREVIEW_SCALE_FACTOR) / (IBB_WIDTH * PREVIEW_SCALE_FACTOR) →
      rectCenterY (fabricScaledRect w h) = IBB_HEIGHT * PREVIEW_SCALE_FACTOR / 2) := by
  refine ⟨?_, ?_, ?_, ?_, ?_, ?_⟩
  · simp only [rectCenterX, renderedRectA, mkGroupA]
    ring
  · simp only [rectCenterY, renderedRectA, mkGroupA]
    ring
  · simp only [rectCenterX, renderedRectB, mkGroupB]
    ring
  · simp only [rectCenterY, renderedRectB, mkGroupB]
    ring
  · simp only [rectCenterX, fabricScaledRect]
    ring
  · intro hb
    simp only [rectCenterY, fabricScaledRect, fabricFit, if_pos hb]
    rw [div_mul_eq_mul_div, mul_comm, mul_div_assoc, div_self hh.ne']
    norm_num [IBB_HEIGHT, PREVIEW_SCALE_FACTOR]

/-- C4 witness: a tall 30x300-pixel fabric group takes the height-binding
branch and is vertically centered. -/
theorem centering_after_fit_witness :
    rectCenterY (fabricScaledRect 30 300) = IBB_HEIGHT * PREVIEW_SCALE_FACTOR / 2 :=
  (centering_after_fit tri 30 300 (by norm_num) (by norm_num)).2.2.2.2.2
    (by norm_num [IBB_HEIGHT, IBB_WIDTH, PREVIEW_SCALE_FACTOR])

/-- C4 counterexample: the wide example set gives a 300x30-pixel fabric group;
its fitted content has vertical center 67.2 pixels while the drawing region's
center is 184.5 pixels, so the fabric backend does not center after fit. -/
theorem fabric_vertical_centering_counterexample :
    fabricGroupDims wideTri = ⟨300, 30⟩ ∧
    rectCenterY (fabricScaledRect 300 30) ≠ IBB_HEIGHT * PREVIEW_SCALE_FACTOR / 2 := by
  constructor
  · norm_num [fabricGroupDims, boundingBox, wideTri, preparePolyline,
      min_def, max_def, PREVIEW_SCALE_FACTOR]
  · rw [rectCenterY, fabricScaledRect, fabricFit]
    norm_num [IBB_WIDTH, IBB_HEIGHT, PREVIEW_SCALE_FACTOR]

/-- Scaling every point's coordinates by a nonnegative factor scales a
running minimum of the x-coordinates by the same factor. -/
lemma foldl_min_x_scale (c : ℚ) (hc : 0 ≤ c) (l : List Point) (a : ℚ) :
    (l.map (fun q => (⟨q.x * c, q.y * c⟩ : Point))).foldl
        (fun b q => min b q.x) (a * c)
      = l.foldl (fun b q => min b q.x) a * c := by
  induction l generalizing a with
  | nil => rfl
  | cons q l ih =>
      simp only [List.map_cons, List.foldl_cons]
      rw [← min_mul_of_nonneg _ _ hc, ih]

/-- Scaling every point's coordinates by a nonnegative factor scales a
running minimum of the y-coordinates by the same factor. -/
lemma foldl_min_y_scale (c : ℚ) (hc : 0 ≤ c) (l : List Point) (a : ℚ) :
    (l.map (fun q => (⟨q.x * c, q.y * c⟩ : Point))).foldl
        (fun b q => min b q.y) (a * c)
      = l.foldl (fun b q => min b q.y) a * c := by
  induction l generalizing a with
  | nil => rfl
  | cons q l ih =>
      simp only [List.map_cons, List.foldl_cons]
      rw [← min_mul_of_nonneg _ _ hc, ih]

/-- Scaling every point's coordinates by a nonnegative factor scales a
running maximum of the x-coordinates by the same factor. -/
lemma foldl_max_x_scale (c : ℚ) (hc : 0 ≤ c) (l : List Point) (a : ℚ) :
    (l.map (fun q => (⟨q.x * c, q.y * c⟩ : Point))).foldl
        (fun b q => max b q.x) (a * c)
      = l.foldl (fun b q => max b q.x) a * c := by
  induction l generalizing a with
  | nil => rfl
  | cons q l ih =>
      simp only [List.map_cons, List.foldl_cons]
      rw [← max_mul_of_nonneg _ _ hc, ih]

/-- Scaling every point's coordinates by a nonnegative factor scales a
running maximum of the y-coordinates by the same factor. -/
lemma foldl_max_y_scale (c : ℚ) (hc : 0 ≤ c) (l : List Point) (a : ℚ) :
    (l.map (fun q => (⟨q.x * c, q.y * c⟩ : Point))).foldl
        (fun b q => max b q.y) (a * c)
      = l.foldl (fun b q => max b q.y) a * c := by
  induction l generalizing a with
  | nil => rfl
  | cons q l ih =>
      simp only [List.map_cons, List.foldl_cons]
      rw [← max_mul_of_nonneg _ _ hc, ih]

/-- Pre-multiplying every point of a polyline set by a nonnegative factor
(as `preparePolyline` does) scales its bounding box componentwise. -/
lemma boundingBox_scale (ps : PolylineSet) (c : ℚ) (hc : 0 ≤ c) :
    boundingBox (ps.map (fun p => preparePolyline p c))
      = ⟨(boundingBox ps).x * c, (boundingBox ps).y * c,
         (boundingBox ps).width * c, (boundingBox ps).height * c⟩ := by
  unfold boundingBox preparePolyline
  rw [← List.map_flatten]
  cases h : ps.flatten with
  | nil => simp
  | cons p rest =>
      simp only [List.map_cons]
      rw [foldl_min_x_scale c hc, foldl_min_y_scale c hc,
        foldl_max_x_scale c hc, foldl_max_y_scale c hc]
      congr 1 <;> ring

/-- C5 (amended): the backends do NOT submit equal transform tuples for the
same polyline set and the same (empty) manipulation sequence. At the initial
unmodified placement the scripts.js Konva backend submits the centering
coordinates, `offset_x = IBB_WIDTH / 2 + (bounding-box center x)`, while the
fabric backend submits the displacement of the anchored group from its
construction position divided by the magnification factor,
`offset_x = IBB_WIDTH / 2 - scale * width / 2 - x`; for content in the
positive quadrant with positive dimensions the gap
`(1 + scale) * width / 2 + 2 * x` is strictly positive, so the two
submissions always differ. -/
theorem backend_submission_disagreement (ps : PolylineSet) (m : String)
    (hx : 0 ≤ (boundingBox ps).x) (hw : 0 < (boundingBox ps).width)
    (hh : 0 < (boundingBox ps).height) :
    (printRequestA (mkGroupA ps) m).offset_x
      = IBB_WIDTH / 2 + ((boundingBox ps).width / 2 + (boundingBox ps).x) ∧
    (printRequestFabric (mkFabricObject ps) m).offset_x
      = IBB_WIDTH / 2
        - (mkFabricObject ps).scaleX * (boundingBox ps).width / 2
        - (boundingBox ps).x ∧
    0 < (mkFabricObject ps).scaleX ∧
    (printRequestFabric (mkFabricObject ps) m).offset_x
      < (printRequestA (mkGroupA ps) m).offset_x ∧
    (printRequestFabric (mkFabricObject ps) m).offset_x ≠
      (printRequestA (mkGroupA ps) m).offset_x := by
  have hbb := boundingBox_scale ps PREVIEW_SCALE_FACTOR
    (by norm_num [PREVIEW_SCALE_FACTOR])
  have ha : (printRequestA (mkGroupA ps) m).offset_x
      = IBB_WIDTH / 2 + ((boundingBox ps).width / 2 + (boundingBox ps).x) := by
    simp [printRequestA, mkGroupA]
  have hspos : 0 < (mkFabricObject ps).scaleX := by
    simp only [mkFabricObject, hbb, fabricFit]
    split
    · apply div_pos
      · norm_num [IBB_HEIGHT, PREVIEW_SCALE_FACTOR]
      · exact mul_pos hh (by norm_num [PREVIEW_SCALE_FACTOR])
    · apply div_pos
      · norm_num [IBB_WIDTH, PREVIEW_SCALE_FACTOR]
      · exact mul_pos hw (by norm_num [PREVIEW_SCALE_FACTOR])
  have hf : (printRequestFabric (mkFabricObject ps) m).offset_x
      = IBB_WIDTH / 2
        - (mkFabricObject ps).scaleX * (boundingBox ps).width / 2
        - (boundingBox ps).x := by
    simp only [printRequestFabric, mkFabricObject, hbb]
    rw [IBB_WIDTH, PREVIEW_SCALE_FACTOR]
    ring
  refine ⟨ha, hf, hspos, ?_, ?_⟩
  · rw [ha, hf]
    nlinarith [hspos, hw, hx]
  · rw [ha, hf]
    intro hcon
    nlinarith [hspos, hw, hx]

/-- C5 witness: for the spec's example polyline set, the two backends submit
different `offset_x` values at the initial placement. -/
theorem backend_submission_disagreement_witness :
    (printRequestFabric (mkFabricObject tri) "once").offset_x ≠
      (printRequestA (mkGroupA tri) "once").offset_x :=
  (backend_submission_disagreement tri "once"
    (by norm_num [boundingBox, tri, min_def, max_def])
    (by norm_num [boundingBox, tri, min_def, max_def])
    (by norm_num [boundingBox, tri, min_def, max_def])).2.2.2.2

/-- C5 counterexample: for the spec's example polyline set and no user
manipulation, the scripts.js Konva backend submits `offset_x = 184` while the
fabric backend submits `offset_x = 122.5` (anchored left 367.5 minus
construction left 0, divided by 3), so the two implementations do not submit
equal transform tuples. -/
theorem backend_submission_counterexample :
    (printRequestA (mkGroupA tri) "once").offset_x = 184 ∧
    (printRequestFabric (mkFabricObject tri) "once").offset_x = 245 / 2 ∧
    (184 : ℚ) ≠ 245 / 2 := by
  refine ⟨?_, ?_, by norm_num⟩
  · norm_num [printRequestA, mkGroupA, boundingBox, tri, min_def, max_def,
      fitScale, IBB_WIDTH, IBB_HEIGHT, MARGIN]
  · norm_num [printRequestFabric, mkFabricObject, boundingBox, tri,
      preparePolyline, min_def, max_def, fabricFit, IBB_WIDTH, IBB_HEIGHT,
      PREVIEW_SCALE_FACTOR]

/-- C6 (confirmed): with no live polyline group (no layer child named
`polylines`; no fabric canvas object), every variant's submit short-circuits:
it issues no network request and surfaces exactly the no-object notice. The
handlers never write the layer or canvas, so the state is untouched. -/
theorem empty_submit_guard (layer : Layer) (objs : List FabricObject) (m : String)
    (hA : layer.filter (fun g => g.name = "polylines") = []) (hF : objs = []) :
    printObjectA layer m = ([], [noObjectNotice]) ∧
    printObjectB layer m = ([], [noObjectNotice]) ∧
    printObjectFabric objs m = ([], [noObjectNotice]) := by
  subst hF
  refine ⟨?_, ?_, rfl⟩ <;> simp [printObjectA, printObjectB, hA]

/-- C6 witness: submit on an empty layer and an empty canvas. -/
theorem empty_submit_guard_witness :
    printObjectA [] "once" = ([], [noObjectNotice]) ∧
    printObjectB [] "once" = ([], [noObjectNotice]) ∧
    printObjectFabric [] "once" = ([], [noObjectNotice]) :=
  empty_submit_guard [] [] "once" rfl rfl

/-- C7 (confirmed): a decomposition response with a non-success status leaves
the layer exactly as it was (the clearing and redrawing happen only in the
success branch) and produces exactly one alert; a submission response with a
non-204 status leaves the group (the current placement) unchanged and produces
exactly the classification alert. -/
theorem error_atomicity (layer : Layer) (status pstatus : Nat) (ps : PolylineSet)
    (b : Option String) (g : KonvaGroup) (m : String)
    (hfail : ¬ (200 ≤ status ∧ status < 300)) (hp : pstatus ≠ 204) :
    (loadSvg layer status ps b).1 = layer ∧
    (loadSvg layer status ps b).2.length = 1 ∧
    (submitHandle g pstatus m).1 = g ∧
    (submitHandle g pstatus m).2
      = [if pstatus = 400 then invalidInputAlert else genericErrorAlert pstatus] := by
  refine ⟨?_, ?_, rfl, by simp [submitHandle, hp]⟩ <;>
  · rw [loadSvg, if_neg hfail]
    by_cases h4 : status = 400 <;> simp [h4]

/-- C7 witness: a 500 decomposition response leaves the loaded group in place;
a 500 submission response leaves the group unchanged. -/
theorem error_atomicity_witness :
    (loadSvg [mkGroupA tri] 500 [] none).1 = [mkGroupA tri] ∧
    (loadSvg [mkGroupA tri] 500 [] none).2.length = 1 ∧
    (submitHandle (mkGroupA tri) 500 "once").1 = mkGroupA tri ∧
    (submitHandle (mkGroupA tri) 500 "once").2
      = [if 500 = 400 then invalidInputAlert else genericErrorAlert 500] :=
  error_atomicity [mkGroupA tri] 500 500 [] none (mkGroupA tri) "once"
    (by norm_num) (by norm_num)

/-- C8 (amended): the code has no empty-set guard: a successful decomposition
response carrying an empty polyline set still constructs a (childless) group
named `polylines`, runs the fit computation on the zero-area bounding box, and
adds the group to the layer; a subsequent submit therefore does not
short-circuit and issues a request for the empty group. -/
theorem empty_set_no_guard (layer : Layer) (m : String) :
    (loadSvg layer 200 [] none).1 = [mkGroupB []] ∧
    (mkGroupB []).name = "polylines" ∧
    (mkGroupB []).scaleX
      = fitScale ⟨(boundingBox []).width, (boundingBox []).height⟩
          ⟨IBB_WIDTH, IBB_HEIGHT⟩ MARGIN ∧
    printObjectB (loadSvg layer 200 [] none).1 m
      = ([printRequestB (mkGroupB []) m], []) := by
  refine ⟨by norm_num [loadSvg], rfl, rfl, ?_⟩
  norm_num [loadSvg]
  simp [printObjectB, mkGroupB]

/-- C8 counterexample: loading an empty polyline set leaves ONE manipulable
group in the layer (not none), and submit afterwards raises no notice and
issues a (non-empty) list of requests — the claimed short-circuit to a
no-content outcome does not exist. -/
theorem empty_set_guard_counterexample :
    (loadSvg [] 200 [] none).1.length = 1 ∧
    (printObjectB (loadSvg [] 200 [] none).1 "once").2 = [] ∧
    (printObjectB (loadSvg [] 200 [] none).1 "once").1 ≠ [] := by
  refine ⟨by norm_num [loadSvg], ?_, ?_⟩ <;>
    simp [loadSvg, printObjectB, mkGroupB]

/-- C9 (amended): for every non-success decomposition response, status 400
surfaces the invalid-input message and any other status surfaces the generic
message carrying the numeric status; however, the decomposition handler never
reads the error body (its outcome is independent of it) — the
detail-extraction-with-silent-fallback behaviour exists only in the
file-listing handler `loadSvgList`. -/
theorem error_classification (layer : Layer) (status : Nat) (ps : PolylineSet)
    (b : Option String) (hfail : ¬ (200 ≤ status ∧ status < 300)) :
    (status = 400 → (loadSvg layer status ps b).2 = [invalidInputAlert]) ∧
    (status ≠ 400 → (loadSvg layer status ps b).2 = [genericErrorAlert status]) ∧
    (∀ b', loadSvg layer status ps b' = loadSvg layer status ps b) ∧
    (∀ d, loadSvgListErrorText status (some d)
      = loadSvgListErrorText status none ++ "\nDetails: " ++ d) := by
  refine ⟨?_, ?_, fun b' => rfl, fun d => rfl⟩ <;>
    intro h4 <;> rw [loadSvg, if_neg hfail] <;> simp [h4]

/-- C9 witness: a 500 decomposition response surfaces the generic message. -/
theorem error_classification_witness :
    (loadSvg [] 500 [] (some "boom")).2 = [genericErrorAlert 500] :=
  (error_classification [] 500 [] (some "boom") (by norm_num)).2.1 (by norm_num)

/-- C9 counterexample: a 500 decomposition response whose error body carries
the detail `boom` surfaces only the generic message; the outcome is identical
to the one with no error body at all, so the decomposition handler does not
attempt to extract a detail field (that behaviour lives in the file-listing
handler, shown in the last conjunct). -/
theorem decomposition_details_counterexample :
    (loadSvg [] 500 [] (some "boom")).2 = ["Error (HTTP 500)"] ∧
    loadSvg [] 500 [] (some "boom") = loadSvg [] 500 [] none ∧
    loadSvgListErrorText 500 (some "boom")
      = "Error fetching SVG files (HTTP 500)\nDetails: boom" :=
  ⟨rfl, rfl, rfl⟩

/-- C10 (confirmed): the newer Konva variant's click/tap handler clears the
selection on a stage click, selects the parent group of a clicked stroke when
it is not currently selected, and clears the selection when it is — so a
second click on the selected group deselects it. -/
theorem click_selection_toggle (selected : List Nat) (g : Nat) :
    clickHandler selected ClickTarget.stage = [] ∧
    (¬ g ∈ selected → clickHandler selected (ClickTarget.shape g) = [g]) ∧
    (g ∈ selected → clickHandler selected (ClickTarget.shape g) = []) ∧
    (¬ g ∈ selected →
      clickHandler (clickHandler selected (ClickTarget.shape g))
        (ClickTarget.shape g) = []) := by
  refine ⟨rfl, ?_, ?_, ?_⟩ <;> intro hg <;> simp [clickHandler, hg]

/-- C10 witness: clicking an unselected group selects it, clicking it again
deselects it. -/
theorem click_selection_toggle_witness :
    clickHandler [] (ClickTarget.shape 7) = [7] ∧
    clickHandler [7] (ClickTarget.shape 7) = [] ∧
    clickHandler (clickHandler [] (ClickTarget.shape 7)) (ClickTarget.shape 7) = [] :=
  ⟨(click_selection_toggle [] 7).2.1 (by simp),
   (click_selection_toggle [7] 7).2.2.1 (by simp),
   (click_selection_toggle [] 7).2.2.2 (by simp)⟩

end IBoardBot
